import Mathlib

/-!
Verification development for the Telegram medical-appointment bot
(`bot.py`, `models.py`).  The relational rows of `models.py` are embedded
as Lean structures, a database state as lists of rows, and each handler
of `bot.py` that the properties below concern as an explicit state
function.  Side-effecting calls that can fail (Telegram sends, SMTP,
file downloads, SQL commits) are passed in as boolean oracles telling
whether the call succeeds, so every error path of the source is a branch
of the Lean function.
-/

namespace MedBot

/-! ## Data model (models.py) -/

structure UserRow where
  id : Nat
  telegram_id : Int
  name : String
  email : String
  phone : String
  deriving DecidableEq, Repr

structure SpecializationRow where
  id : Nat
  name : String
  deriving DecidableEq, Repr

structure DoctorRow where
  id : Nat
  name : String
  specialization_id : Nat
  in_person_available : Bool
  online_available : Bool
  deriving DecidableEq, Repr

structure AppointmentRow where
  id : Nat
  user_id : Nat
  doctor_id : Nat
  appointment_type : String
  contact_method : String
  description : String
  status : String
  created_at : Nat
  deriving DecidableEq, Repr

structure HealthCertificateRow where
  id : Nat
  user_id : Nat
  reason : String
  description : String
  status : String
  created_at : Nat
  deriving DecidableEq, Repr

structure DB where
  users : List UserRow
  specializations : List SpecializationRow
  doctors : List DoctorRow
  appointments : List AppointmentRow
  certificates : List HealthCertificateRow
  deriving DecidableEq, Repr

def isTerminal (s : String) : Bool :=
  s == "confirmed" || s == "rejected" || s == "canceled"

/-! ## Developer inline actions (bot.py, confirm_appointment / reject_appointment)

`session.query(Appointment).filter_by(id=...).first()` fetches the first
row with the given id and the handler mutates that row in place, so the
embedding updates the first matching list entry. -/

def updateFirstAppt (l : List AppointmentRow) (apptId : Nat)
    (f : AppointmentRow → AppointmentRow) : List AppointmentRow :=
  match l with
  | [] => []
  | a :: rest =>
      if a.id == apptId then f a :: rest else a :: updateFirstAppt rest apptId f

inductive ApptActionResult where
  | updated
  | commitFailed
  | invalidOrProcessed
  deriving DecidableEq, Repr

def setStatusOfAppt (db : DB) (apptId : Nat) (tgt : String) : DB :=
  { db with appointments :=
      updateFirstAppt db.appointments apptId (fun x => { x with status := tgt }) }

def confirmAppointment (db : DB) (apptId : Nat) (commitOk : Bool) :
    DB × ApptActionResult :=
  match db.appointments.find? (fun a => a.id == apptId) with
  | some a =>
      if a.status == "pending" then
        if commitOk then (setStatusOfAppt db apptId "confirmed", .updated)
        else (db, .commitFailed)
      else (db, .invalidOrProcessed)
  | none => (db, .invalidOrProcessed)

def rejectAppointment (db : DB) (apptId : Nat) (commitOk : Bool) :
    DB × ApptActionResult :=
  match db.appointments.find? (fun a => a.id == apptId) with
  | some a =>
      if a.status == "pending" then
        if commitOk then (setStatusOfAppt db apptId "rejected", .updated)
        else (db, .commitFailed)
      else (db, .invalidOrProcessed)
  | none => (db, .invalidOrProcessed)

/-! ## Doctor removal (bot.py, confirm_remove_doctor, "بله" branch)

The source loops over all appointments of the doctor and assigns
`appt.status = 'canceled'` outside of the `if appt.status in
['pending', 'confirmed']` guard (that guard only controls the user
notification), then deletes the doctor and commits; an IntegrityError
rolls everything back. -/

def confirmRemoveDoctor (db : DB) (doctorId : Nat) (commitOk : Bool) : DB :=
  match db.doctors.find? (fun d => d.id == doctorId) with
  | none => db
  | some _ =>
      if commitOk then
        { db with
          appointments := db.appointments.map
            (fun a => if a.doctor_id == doctorId
                      then { a with status := "canceled" } else a),
          doctors := db.doctors.filter (fun d => !(d.id == doctorId)) }
      else db

/-! ## Conversation states (bot.py, range(29)) -/

def MAIN_MENU : Nat := 0
def REGISTER_NAME : Nat := 1
def REGISTER_EMAIL : Nat := 2
def REGISTER_PHONE : Nat := 3
def APPOINTMENT_CHOOSE_SPECIALIZATION : Nat := 4
def APPOINTMENT_CHOOSE_DOCTOR : Nat := 5
def APPOINTMENT_CONTACT_METHOD : Nat := 6
def APPOINTMENT_DESCRIPTION : Nat := 7
def CERTIFICATE_REASON : Nat := 8
def CERTIFICATE_DESCRIPTION : Nat := 9
def EDIT_PROFILE_MENU : Nat := 10
def EDIT_NAME : Nat := 11
def EDIT_PHONE : Nat := 12
def EDIT_EMAIL : Nat := 13
def DEVELOPER_MENU : Nat := 14
def DEV_MANAGE_SPECIALIZATIONS : Nat := 15
def DEV_ADD_SPECIALIZATION : Nat := 16
def DEV_REMOVE_SPECIALIZATION_SELECT : Nat := 17
def CONFIRM_REMOVE_SPEC : Nat := 18
def DEV_ADD_DOCTOR_CHOOSE_SPECIALIZATION : Nat := 19
def DEV_ADD_DOCTOR_NAME : Nat := 20
def DEV_ADD_DOCTOR_AVAILABILITY : Nat := 21
def DEV_REMOVE_DOCTOR_CHOOSE_SPECIALization : Nat := 22
def DEV_REMOVE_DOCTOR_SELECT : Nat := 23
def CONFIRM_REMOVE_DOCTOR : Nat := 24
def SEND_MESSAGE_TO_USER : Nat := 25
def SEND_MESSAGE_TO_DEVELOPER : Nat := 26
def PAYMENT_APPOINTMENT_ID : Nat := 27
def PAYMENT_RECEIPT : Nat := 28

/-! ## Schema uniqueness flags (models.py)

One entry per Column(...) call of models.py, with its primary_key and
unique keyword flags as written there. -/

structure ColumnSpec where
  table : String
  column : String
  primaryKey : Bool
  uniqueFlag : Bool
  deriving DecidableEq, Repr

def schemaColumns : List ColumnSpec :=
  [ { table := "users", column := "id", primaryKey := true, uniqueFlag := false },
    { table := "users", column := "telegram_id", primaryKey := false, uniqueFlag := true },
    { table := "users", column := "name", primaryKey := false, uniqueFlag := false },
    { table := "users", column := "email", primaryKey := false, uniqueFlag := true },
    { table := "users", column := "phone", primaryKey := false, uniqueFlag := false },
    { table := "specializations", column := "id", primaryKey := true, uniqueFlag := false },
    { table := "specializations", column := "name", primaryKey := false, uniqueFlag := true },
    { table := "doctors", column := "id", primaryKey := true, uniqueFlag := false },
    { table := "doctors", column := "name", primaryKey := false, uniqueFlag := false },
    { table := "doctors", column := "specialization_id", primaryKey := false, uniqueFlag := false },
    { table := "doctors", column := "in_person_available", primaryKey := false, uniqueFlag := false },
    { table := "doctors", column := "online_available", primaryKey := false, uniqueFlag := false },
    { table := "appointments", column := "id", primaryKey := true, uniqueFlag := false },
    { table := "appointments", column := "user_id", primaryKey := false, uniqueFlag := false },
    { table := "appointments", column := "doctor_id", primaryKey := false, uniqueFlag := false },
    { table := "appointments", column := "appointment_type", primaryKey := false, uniqueFlag := false },
    { table := "appointments", column := "contact_method", primaryKey := false, uniqueFlag := false },
    { table := "appointments", column := "description", primaryKey := false, uniqueFlag := false },
    { table := "appointments", column := "status", primaryKey := false, uniqueFlag := false },
    { table := "appointments", column := "created_at", primaryKey := false, uniqueFlag := false },
    { table := "health_certificates", column := "id", primaryKey := true, uniqueFlag := false },
    { table := "health_certificates", column := "user_id", primaryKey := false, uniqueFlag := false },
    { table := "health_certificates", column := "reason", primaryKey := false, uniqueFlag := false },
    { table := "health_certificates", column := "description", primaryKey := false, uniqueFlag := false },
    { table := "health_certificates", column := "status", primaryKey := false, uniqueFlag := false },
    { table := "health_certificates", column := "created_at", primaryKey := false, uniqueFlag := false } ]

def uniqueColumns : List (String × String) :=
  (schemaColumns.filter (fun c => c.uniqueFlag)).map (fun c => (c.table, c.column))

def c4ClaimedUnique : List (String × String) :=
  [("users", "email"), ("users", "telegram_id"), ("available_slots", "timestamp")]

def C4Claim : Prop :=
  (∀ p ∈ uniqueColumns, p ∈ c4ClaimedUnique) ∧
  (∀ p ∈ c4ClaimedUnique, p ∈ uniqueColumns)

instance : Decidable C4Claim := by
  unfold C4Claim; infer_instance

/-! ## AvailableSlot (spec-modelled)

Modelled from the spec: the `AvailableSlot` entity and the cancellation
path that restores it exist in other near-duplicate bot variants of this
repository, not in the bot.py/models.py variant under src (models.py has
no slot table and no appointment date column). -/

structure SlotAppointment where
  id : Nat
  status : String
  date : Nat
  deriving DecidableEq, Repr

/-- Modelled from the spec: cancelling an appointment sets its status to
canceled, and when the appointment was confirmed and its date lies in
the future the operation re-creates the `AvailableSlot` (a single
bookable timestamp, deleted on booking) at that timestamp. -/
def cancelAppointmentSlots (slots : List Nat) (appt : SlotAppointment)
    (now : Nat) : List Nat × SlotAppointment :=
  if appt.status = "confirmed" ∧ now < appt.date then
    (appt.date :: slots, { appt with status := "canceled" })
  else (slots, { appt with status := "canceled" })

/-! ## Payment: appointment id entry (bot.py, payment_appointment_id_handler)

The Python handler compares the (lowercased) text against the back and
cancel labels, which contain no cased characters, so plain equality is
the faithful comparison; `str.isdigit` is modelled on the decimal-digit
fragment.  The handler only queries the session, so its embedding takes
the database read-only and returns the next conversation state. -/

def isdigit (s : String) : Bool :=
  !s.isEmpty && s.data.all Char.isDigit

def strToNat (s : String) : Nat :=
  s.data.foldl (fun n c => n * 10 + (c.toNat - 48)) 0

def paymentAppointmentId (db : DB) (tgId : Int) (text : String) : Nat :=
  if text = "🔙 بازگشت" then MAIN_MENU
  else if text = "❌ لغو" then MAIN_MENU
  else if !(isdigit text) then PAYMENT_APPOINTMENT_ID
  else
    match db.appointments.find? (fun a => a.id == strToNat text) with
    | none => PAYMENT_APPOINTMENT_ID
    | some appt =>
        match db.users.find? (fun u => u.telegram_id == tgId) with
        | none => MAIN_MENU
        | some user =>
            if appt.user_id ≠ user.id then MAIN_MENU
            else if ¬ (appt.status = "pending" ∨ appt.status = "confirmed") then
              MAIN_MENU
            else PAYMENT_RECEIPT

def c2Appt : SlotAppointment where
  id := 1
  status := "confirmed"
  date := 10

def c10User : UserRow where
  id := 3
  telegram_id := 7
  name := "U"
  email := "u@x.com"
  phone := "1"

def c10Appt : AppointmentRow where
  id := 1
  user_id := 3
  doctor_id := 1
  appointment_type := "Cardiology"
  contact_method := "آنلاین"
  description := "d"
  status := "pending"
  created_at := 0

def c10DB : DB where
  users := [c10User]
  specializations := []
  doctors := []
  appointments := [c10Appt]
  certificates := []

/-! ## EMAIL_REGEX (bot.py)

EMAIL_REGEX is re.compile of the pattern: one or more non-at characters,
an at sign, one or more non-at characters, a literal dot, one or more
non-at characters.  It is used through re.match, which anchors at the
start only, so the pattern has to match some prefix of the input and
trailing characters are unrestricted.  With backtracking this succeeds
exactly when the input starts with a nonempty at-free block, an at sign,
and the remainder has a dot preceded by at least one at-free character
(dots allowed among them) and followed by one more non-at character. -/

def emailTailOk (r : List Char) : Bool :=
  (List.range r.length).any (fun k =>
    decide (1 ≤ k) && (r.take k).all (fun c => !(c == '@')) &&
    (r[k]? == some '.') &&
    (match r[k + 1]? with
     | some c => !(c == '@')
     | none => false))

def emailRegexMatch (s : String) : Bool :=
  (List.range s.data.length).any (fun i =>
    decide (1 ≤ i) && (s.data.take i).all (fun c => !(c == '@')) &&
    (s.data[i]? == some '@') &&
    emailTailOk (s.data.drop (i + 1)))

/-! ## Registration steps (bot.py, register_name / register_email / register_phone)

Each handler receives update.message.text already stripped, so the text
arguments here stand for the stripped input.  register_name and
register_email never touch the session; their embeddings therefore only
return the next conversation state. -/

def register_name (text : String) : Nat :=
  if text = "❌ لغو" then MAIN_MENU
  else if text = "" then REGISTER_NAME
  else REGISTER_EMAIL

def register_email (text : String) : Nat :=
  if text = "❌ لغو" then MAIN_MENU
  else if !(emailRegexMatch text) then REGISTER_EMAIL
  else REGISTER_PHONE

/-- The pending_action slot of context.user_data when register_phone runs:
absent, make_appointment (a pass statement in the source), or
request_certificate with the stored reason and description strings
(a missing or None detail is modelled as the empty string, which the
source treats the same way through its falsiness test). -/
inductive PendingAction where
  | nonePending
  | makeAppointment
  | requestCertificate (reason description : String)
  deriving DecidableEq, Repr

structure RegPhoneResult where
  db : DB
  state : Nat
  errorSent : Bool
  deriving DecidableEq, Repr

def updateFirstUser (l : List UserRow) (tgId : Int)
    (f : UserRow → UserRow) : List UserRow :=
  match l with
  | [] => []
  | u :: rest =>
      if u.telegram_id == tgId then f u :: rest
      else u :: updateFirstUser rest tgId f

def newUserId (db : DB) : Nat :=
  (db.users.map (fun u => u.id)).foldr max 0 + 1

def newCertId (db : DB) : Nat :=
  (db.certificates.map (fun c => c.id)).foldr max 0 + 1

/-- Embedding of register_phone.  commitOk is the registration commit,
certCommitOk the commit of the pending-certificate branch, notifyOk the
developer notification send of that branch; errorSent records whether a
failure reply was sent.  A failed commit persists nothing, so the
rollback branches return the incoming database. -/
def register_phone (db : DB) (tgId : Int) (regName regEmail text : String)
    (pending : PendingAction) (commitOk certCommitOk notifyOk : Bool)
    (now : Nat) : RegPhoneResult :=
  if text = "❌ لغو" then ⟨db, MAIN_MENU, false⟩
  else if text = "" then ⟨db, REGISTER_PHONE, false⟩
  else
    let upsert : DB × Nat :=
      match db.users.find? (fun u => u.telegram_id == tgId) with
      | some u0 =>
          let users2 := updateFirstUser db.users tgId
            (fun u => { u with name := regName, email := regEmail, phone := text })
          ({ db with users := users2 }, u0.id)
      | none =>
          let newRow : UserRow :=
            { id := newUserId db, telegram_id := tgId, name := regName,
              email := regEmail, phone := text }
          ({ db with users := db.users ++ [newRow] }, newUserId db)
    if !commitOk then ⟨db, MAIN_MENU, true⟩
    else
      match pending with
      | .nonePending => ⟨upsert.1, MAIN_MENU, false⟩
      | .makeAppointment => ⟨upsert.1, MAIN_MENU, false⟩
      | .requestCertificate reason descr =>
          if reason = "" ∨ descr = "" then ⟨upsert.1, MAIN_MENU, true⟩
          else if !certCommitOk then ⟨upsert.1, MAIN_MENU, true⟩
          else
            let db2 := { upsert.1 with certificates := upsert.1.certificates ++
                [{ id := newCertId upsert.1, user_id := upsert.2,
                   reason := reason, description := descr,
                   status := "pending", created_at := now }] }
            if !notifyOk then ⟨db2, MAIN_MENU, true⟩
            else ⟨db2, MAIN_MENU, false⟩

def c3DB : DB where
  users := []
  specializations := []
  doctors := []
  appointments := []
  certificates := []

/-! ## Appointment creation (bot.py, appointment_description)

The new row is added and flushed, the developer notification and the
(internally caught) confirmation email are attempted, and only then the
commit happens; any exception out of the notify/commit/reply sequence is
caught, rolls the session back and reports failure.  The back branch
dereferences the doctor without a None check, so a missing doctor there
is an unhandled exception, embedded as Option.none. -/

structure ApptDescResult where
  db : DB
  state : Nat
  errorSent : Bool
  deriving DecidableEq, Repr

def newApptId (db : DB) : Nat :=
  (db.appointments.map (fun a => a.id)).foldr max 0 + 1

def appointment_description (db : DB) (tgId : Int) (text : String)
    (ctxDoctorId : Nat) (ctxContact ctxSpec : String)
    (notifyOk commitOk : Bool) (now : Nat) : Option ApptDescResult :=
  if text = "🔙 بازگشت" then
    match db.doctors.find? (fun d => d.id == ctxDoctorId) with
    | none => none
    | some d =>
        if d.in_person_available && d.online_available then
          some ⟨db, APPOINTMENT_CONTACT_METHOD, false⟩
        else if d.in_person_available || d.online_available then
          some ⟨db, APPOINTMENT_DESCRIPTION, false⟩
        else some ⟨db, APPOINTMENT_CONTACT_METHOD, false⟩
  else if text = "❌ لغو" then some ⟨db, MAIN_MENU, false⟩
  else if text = "" then some ⟨db, APPOINTMENT_DESCRIPTION, false⟩
  else
    match db.users.find? (fun u => u.telegram_id == tgId) with
    | none => some ⟨db, REGISTER_NAME, false⟩
    | some user =>
        match db.doctors.find? (fun d => d.id == ctxDoctorId) with
        | none => some ⟨db, MAIN_MENU, false⟩
        | some doctor =>
            if notifyOk && commitOk then
              let row : AppointmentRow :=
                { id := newApptId db, user_id := user.id,
                  doctor_id := doctor.id, appointment_type := ctxSpec,
                  contact_method := ctxContact, description := text,
                  status := "pending", created_at := now }
              some ⟨{ db with appointments := db.appointments ++ [row] },
                MAIN_MENU, false⟩
            else some ⟨db, MAIN_MENU, true⟩

/-! ## Adding a specialization (bot.py, dev_add_specialization) -/

structure DevAddSpecResult where
  db : DB
  state : Nat
  errorSent : Bool
  deriving DecidableEq, Repr

def newSpecId (db : DB) : Nat :=
  (db.specializations.map (fun sp => sp.id)).foldr max 0 + 1

def dev_add_specialization (db : DB) (text : String) (commitOk : Bool) :
    DevAddSpecResult :=
  if text = "🔙 بازگشت" then ⟨db, DEVELOPER_MENU, false⟩
  else if text = "❌ لغو" then ⟨db, MAIN_MENU, false⟩
  else if text = "" then ⟨db, DEV_ADD_SPECIALIZATION, false⟩
  else
    match db.specializations.find? (fun sp => sp.name == text) with
    | some _ => ⟨db, DEV_ADD_SPECIALIZATION, false⟩
    | none =>
        if commitOk then
          let row : SpecializationRow := { id := newSpecId db, name := text }
          ⟨{ db with specializations := db.specializations ++ [row] },
            DEVELOPER_MENU, false⟩
        else ⟨db, DEV_MANAGE_SPECIALIZATIONS, true⟩

/-! ## Network operations and their failure handling (bot.py) -/

inductive EmailSendResult where
  | invalidLogged
  | sent
  | errorLogged
  deriving DecidableEq, Repr

/-- send_email validates the address against EMAIL_REGEX, then attempts
SMTP delivery inside try/except Exception; a raised error is logged and
swallowed, so the function always returns instead of propagating. -/
def send_email (toEmail : String) (smtpOk : Bool) : EmailSendResult :=
  if !(emailRegexMatch toEmail) then .invalidLogged
  else if smtpOk then .sent
  else .errorLogged

structure MsgResult where
  state : Nat
  failureMsgSent : Bool
  deriving DecidableEq, Repr

def send_message_to_developer (text : String) (sendOk : Bool) : MsgResult :=
  if text = "🔙 بازگشت" then ⟨MAIN_MENU, false⟩
  else if text = "❌ لغو" then ⟨MAIN_MENU, false⟩
  else if text = "" then ⟨SEND_MESSAGE_TO_DEVELOPER, false⟩
  else if sendOk then ⟨MAIN_MENU, false⟩
  else ⟨MAIN_MENU, true⟩

def breakAtSpace : List Char → Option (List Char × List Char)
  | [] => none
  | c :: rest =>
      if c == ' ' then some ([], rest)
      else
        match breakAtSpace rest with
        | none => none
        | some (p, q) => some (c :: p, q)

/-- Embedding of the developer send_message_to_user handler: the input is
split at the first space, mirroring split with maxsplit one; an input
without a space has fewer than two parts and is rejected as invalid
format; int parsing of the id part is modelled on the decimal-digit
fragment.  Every branch of the source returns DEVELOPER_MENU. -/
def send_message_to_user (text : String) (sendOk : Bool) : MsgResult :=
  match breakAtSpace text.data with
  | none => ⟨DEVELOPER_MENU, false⟩
  | some (p0, _) =>
      if !(isdigit (String.mk p0)) then ⟨DEVELOPER_MENU, false⟩
      else if sendOk then ⟨DEVELOPER_MENU, false⟩
      else ⟨DEVELOPER_MENU, true⟩

inductive ReceiptUpload where
  | photo
  | document (ext : String)
  | textMsg (t : String)
  deriving DecidableEq, Repr

/-- Embedding of payment_receipt_handler; downloadOk is the
file.download_to_drive call and sendOk the send_photo call to the
developer, each wrapped in try/except Exception in the source. -/
def payment_receipt (db : DB) (tgId : Int) (apptIdCtx : Option Nat)
    (upload : ReceiptUpload) (downloadOk sendOk : Bool) : MsgResult :=
  match db.users.find? (fun u => u.telegram_id == tgId) with
  | none => ⟨MAIN_MENU, false⟩
  | some _ =>
      match apptIdCtx with
      | none => ⟨MAIN_MENU, false⟩
      | some _ =>
          match upload with
          | .photo =>
              if !downloadOk then ⟨MAIN_MENU, true⟩
              else if sendOk then ⟨MAIN_MENU, false⟩
              else ⟨MAIN_MENU, true⟩
          | .document ext =>
              if ¬ (ext = ".jpg" ∨ ext = ".jpeg" ∨ ext = ".png") then
                ⟨PAYMENT_RECEIPT, false⟩
              else if !downloadOk then ⟨MAIN_MENU, true⟩
              else if sendOk then ⟨MAIN_MENU, false⟩
              else ⟨MAIN_MENU, true⟩
          | .textMsg t =>
              if t = "🔙 بازگشت" then ⟨MAIN_MENU, false⟩
              else if t = "❌ لغو" then ⟨MAIN_MENU, false⟩
              else ⟨PAYMENT_RECEIPT, false⟩

def C7Claim : Prop :=
  (∀ text, (send_message_to_developer text false).failureMsgSent = true →
    (send_message_to_developer text false).state = MAIN_MENU) ∧
  (∀ db tgId aid up sOk,
    (payment_receipt db tgId aid up false sOk).failureMsgSent = true →
    (payment_receipt db tgId aid up false sOk).state = MAIN_MENU) ∧
  (∀ text, (send_message_to_user text false).failureMsgSent = true →
    (send_message_to_user text false).state = MAIN_MENU)

/-! ## Developer menu (bot.py, developer_menu_handler) -/

def developer_menu_handler (db : DB) (choice : String) : Nat :=
  if choice = "🗂 مدیریت تخصص‌ها" then DEV_MANAGE_SPECIALIZATIONS
  else if choice = "➕ افزودن پزشک" then
    (if db.specializations = [] then DEVELOPER_MENU
     else DEV_ADD_DOCTOR_CHOOSE_SPECIALIZATION)
  else if choice = "➖ حذف پزشک" then
    (if db.specializations = [] then DEVELOPER_MENU
     else DEV_REMOVE_SPECIALIZATION_SELECT)
  else if choice = "📊 مشاهده آمار" then DEVELOPER_MENU
  else if choice = "📨 ارسال پیام به کاربر" then SEND_MESSAGE_TO_USER
  else if choice = "🔙 بازگشت" then MAIN_MENU
  else DEVELOPER_MENU

/-! ## Registered handlers (bot.py, conv_handler and application setup) -/

inductive CommandRole where
  | entryPoint
  | fallback
  | developerOnly
  deriving DecidableEq, Repr

inductive TgHandler where
  | conversation (entry : List String) (fallbacks : List String)
  | callbackQuery (pattern : String)
  | command (name : String) (restrictedTo : Option Int)
  deriving DecidableEq, Repr

def applicationHandlers (devChatId : Int) : List TgHandler :=
  [ .conversation ["start"] ["cancel", "restart"],
    .callbackQuery "^(confirm_appt_|reject_appt_|approve_cert_|reject_cert_)\\d+$",
    .command "sendmsg" (some devChatId),
    .command "getdevid" (some devChatId),
    .command "sendtestreceipt" (some devChatId) ]

def commandsOfHandler (h : TgHandler) : List (String × CommandRole) :=
  match h with
  | .conversation entry fallbacks =>
      entry.map (fun n => (n, CommandRole.entryPoint)) ++
      fallbacks.map (fun n => (n, CommandRole.fallback))
  | .callbackQuery _ => []
  | .command n (some _) => [(n, CommandRole.developerOnly)]
  | .command n none => [(n, CommandRole.fallback)]

def commandsRegistered (devChatId : Int) : List (String × CommandRole) :=
  ((applicationHandlers devChatId).map commandsOfHandler).flatten

/-! ## Conversation state graph (bot.py, conv_handler states table)

handlerReturnStates s lists every conversation state that the handler
registered for state s can return, read off the return statements of
that handler in the source (branches delegating to cancel or restart
return MAIN_MENU). -/

def handlerReturnStates : Nat → List Nat
  | 0 => [0, 4, 8, 10, 27, 26, 14]
  | 1 => [0, 1, 2]
  | 2 => [0, 2, 3]
  | 3 => [0, 3]
  | 4 => [0, 4, 5]
  | 5 => [4, 5, 0, 7, 6]
  | 6 => [5, 0, 6, 7]
  | 7 => [7, 6, 0, 1]
  | 8 => [0, 8, 9]
  | 9 => [8, 0, 9, 1]
  | 10 => [11, 12, 13, 0, 10]
  | 11 => [10, 0, 11]
  | 12 => [10, 0, 12]
  | 13 => [10, 0, 13]
  | 14 => [15, 14, 19, 17, 25, 0]
  | 15 => [16, 14, 17, 0, 15]
  | 16 => [14, 0, 16, 15]
  | 17 => [14, 18]
  | 18 => [14, 18]
  | 19 => [14, 19, 20]
  | 20 => [19, 0, 20, 21]
  | 21 => [20, 0, 21, 14]
  | 22 => [14, 17, 23]
  | 23 => [17, 14, 24]
  | 24 => [14, 24]
  | 25 => [14]
  | 26 => [0, 26]
  | 27 => [0, 27, 28]
  | 28 => [0, 28]
  | _ => []

/-- One breadth step of reachability over the conversation graph, from
the entry state MAIN_MENU (the start entry point and both fallbacks
return MAIN_MENU). -/
def reachOnce (acc : List Nat) : List Nat :=
  (acc ++ (acc.map handlerReturnStates).flatten).dedup

def iterReach : Nat → List Nat
  | 0 => [MAIN_MENU]
  | n + 1 => reachOnce (iterReach n)

def reachableStates : List Nat := iterReach 29

def c9DB : DB where
  users := []
  specializations := [{ id := 1, name := "Cardiology" }]
  doctors := []
  appointments := []
  certificates := []

def c5User : UserRow where
  id := 1
  telegram_id := 7
  name := "U"
  email := "u@x.com"
  phone := "1"

def c5DB : DB where
  users := [c5User]
  specializations := [{ id := 1, name := "Cardiology" }]
  doctors := [{ id := 1, name := "Dr A", specialization_id := 1,
                in_person_available := true, online_available := true }]
  appointments := []
  certificates := []

/-! ## C1 statement material -/

def noTerminalEscape (pre post : DB) : Prop :=
  ∀ a, a ∈ pre.appointments → ∀ b, b ∈ post.appointments →
    a.id = b.id → isTerminal a.status = true → b.status = a.status

instance (pre post : DB) : Decidable (noTerminalEscape pre post) := by
  unfold noTerminalEscape; infer_instance

def C1Claim : Prop :=
  (∀ db apptId ok, noTerminalEscape db (confirmAppointment db apptId ok).1) ∧
  (∀ db apptId ok, noTerminalEscape db (rejectAppointment db apptId ok).1) ∧
  (∀ db doctorId ok, noTerminalEscape db (confirmRemoveDoctor db doctorId ok))

def c1Appt : AppointmentRow where
  id := 1
  user_id := 1
  doctor_id := 1
  appointment_type := "Cardiology"
  contact_method := "حضوری"
  description := "d"
  status := "rejected"
  created_at := 0

def c1DB : DB where
  users := []
  specializations := [{ id := 1, name := "Cardiology" }]
  doctors := [{ id := 1, name := "Dr A", specialization_id := 1,
                in_person_available := true, online_available := true }]
  appointments := [c1Appt]
  certificates := []

def stepOnlyPendingTo (pre post : List AppointmentRow) (tgt : String) : Prop :=
  ∀ (i : Nat) (a b : AppointmentRow), pre[i]? = some a → post[i]? = some b →
    b.status ≠ a.status → a.status = "pending" ∧ b.status = tgt

theorem updateFirstAppt_only_pending (l : List AppointmentRow) (apptId : Nat)
    (tgt : String)
    (hfound : ∀ a, l.find? (fun x => x.id == apptId) = some a →
      a.status = "pending") :
    stepOnlyPendingTo l
      (updateFirstAppt l apptId (fun x => { x with status := tgt })) tgt := by
  unfold stepOnlyPendingTo
  induction l with
  | nil => intro i a b ha _ _; simp at ha
  | cons hd tl ih =>
      intro i a b ha hb hne
      by_cases hhd : (hd.id == apptId) = true
      · rw [updateFirstAppt, if_pos hhd] at hb
        match i with
        | 0 =>
            simp only [List.getElem?_cons_zero, Option.some.injEq] at ha hb
            subst ha; subst hb
            refine ⟨hfound hd (by simp [List.find?, hhd]), rfl⟩
        | Nat.succ j =>
            simp only [List.getElem?_cons_succ] at ha hb
            rw [ha, Option.some.injEq] at hb
            exact absurd (congrArg AppointmentRow.status hb).symm hne
      · rw [updateFirstAppt, if_neg hhd] at hb
        match i with
        | 0 =>
            simp only [List.getElem?_cons_zero, Option.some.injEq] at ha hb
            subst ha; subst hb
            exact absurd rfl hne
        | Nat.succ j =>
            simp only [List.getElem?_cons_succ] at ha hb
            have hfound' : ∀ a, tl.find? (fun x => x.id == apptId) = some a →
                a.status = "pending" := by
              intro a' ha'
              exact hfound a' (by simp [List.find?, hhd, ha'])
            exact ih hfound' j a b ha hb hne

theorem stepOnlyPendingTo_refl (l : List AppointmentRow) (tgt : String) :
    stepOnlyPendingTo l l tgt := by
  unfold stepOnlyPendingTo
  intro i a b ha hb hne
  rw [ha, Option.some.injEq] at hb
  exact absurd (congrArg AppointmentRow.status hb).symm hne

theorem confirmAppointment_only_pending (db : DB) (apptId : Nat) (ok : Bool) :
    stepOnlyPendingTo db.appointments
      (confirmAppointment db apptId ok).1.appointments "confirmed" := by
  unfold confirmAppointment
  cases hf : db.appointments.find? (fun a => a.id == apptId) with
  | none => exact stepOnlyPendingTo_refl _ _
  | some a0 =>
      by_cases hp : (a0.status == "pending") = true
      · dsimp only
        rw [if_pos hp]
        cases ok with
        | false => exact stepOnlyPendingTo_refl _ _
        | true =>
            simp only [if_pos, setStatusOfAppt]
            apply updateFirstAppt_only_pending
            intro x hx
            rw [hf, Option.some.injEq] at hx
            subst hx
            exact eq_of_beq hp
      · dsimp only
        rw [if_neg hp]
        exact stepOnlyPendingTo_refl _ _

theorem rejectAppointment_only_pending (db : DB) (apptId : Nat) (ok : Bool) :
    stepOnlyPendingTo db.appointments
      (rejectAppointment db apptId ok).1.appointments "rejected" := by
  unfold rejectAppointment
  cases hf : db.appointments.find? (fun a => a.id == apptId) with
  | none => exact stepOnlyPendingTo_refl _ _
  | some a0 =>
      by_cases hp : (a0.status == "pending") = true
      · dsimp only
        rw [if_pos hp]
        cases ok with
        | false => exact stepOnlyPendingTo_refl _ _
        | true =>
            simp only [if_pos, setStatusOfAppt]
            apply updateFirstAppt_only_pending
            intro x hx
            rw [hf, Option.some.injEq] at hx
            subst hx
            exact eq_of_beq hp
      · dsimp only
        rw [if_neg hp]
        exact stepOnlyPendingTo_refl _ _

/-- C1: the claim that every status transition performed by
confirm_appointment, reject_appointment or confirm_remove_doctor leaves
terminal statuses (confirmed, rejected, canceled) untouched is false:
confirm_remove_doctor assigns status canceled to every appointment of
the removed doctor unconditionally, here moving a rejected (terminal)
appointment to canceled. -/
theorem C1_counterexample : ¬ C1Claim := by
  intro h
  exact absurd (h.2.2 c1DB 1 true) (by decide)

/-- C1 (amended): confirm_appointment and reject_appointment act only on
appointments whose current status is pending, performing exactly
pending→confirmed resp. pending→rejected; confirm_remove_doctor,
however, sets the status of every appointment of the removed doctor to
canceled regardless of its prior status (so confirmed→canceled and
rejected→canceled also occur there), while appointments of other
doctors are kept unchanged. -/
theorem C1_amended :
    (∀ db apptId ok, stepOnlyPendingTo db.appointments
        (confirmAppointment db apptId ok).1.appointments "confirmed") ∧
    (∀ db apptId ok, stepOnlyPendingTo db.appointments
        (rejectAppointment db apptId ok).1.appointments "rejected") ∧
    (∀ db doctorId (a : AppointmentRow), a ∈ db.appointments →
      (db.doctors.find? (fun d => d.id == doctorId)).isSome = true →
      ((a.doctor_id = doctorId →
          { a with status := "canceled" } ∈
            (confirmRemoveDoctor db doctorId true).appointments) ∧
       (a.doctor_id ≠ doctorId →
          a ∈ (confirmRemoveDoctor db doctorId true).appointments))) := by
  refine ⟨confirmAppointment_only_pending, rejectAppointment_only_pending, ?_⟩
  intro db doctorId a ha hd
  unfold confirmRemoveDoctor
  cases hf : db.doctors.find? (fun d => d.id == doctorId) with
  | none => rw [hf] at hd; simp at hd
  | some d0 =>
      constructor
      · intro heq
        refine List.mem_map.mpr ⟨a, ha, ?_⟩
        simp [heq]
      · intro hne
        refine List.mem_map.mpr ⟨a, ha, ?_⟩
        simp [beq_iff_eq, hne]

theorem C1_amended_witness :
    { c1Appt with status := "canceled" } ∈
      (confirmRemoveDoctor c1DB 1 true).appointments :=
  (C1_amended.2.2 c1DB 1 c1Appt (by decide) (by decide)).1 (by decide)

/-- C4: the claim that the only uniqueness invariants of the data model are
users.email, users.telegram_id and the slot timestamp is false on
models.py: specializations.name also carries unique=True, and this
variant has no slot table at all. -/
theorem C4_counterexample : ¬ C4Claim := by decide

/-- C4 (amended): the columns of models.py carrying a unique=True
constraint are exactly users.telegram_id, users.email and
specializations.name; this variant of the schema has no slot table. -/
theorem C4_amended :
    uniqueColumns =
      [("users", "telegram_id"), ("users", "email"),
       ("specializations", "name")] := by decide

/-- C2 (spec-modelled): cancelling a confirmed appointment whose date lies
in the future re-creates exactly one AvailableSlot row at that
appointment timestamp (the slot having been deleted on booking, so it is
absent beforehand). -/
theorem C2_cancel_recreates_slot (slots : List Nat) (appt : SlotAppointment)
    (now : Nat) (hst : appt.status = "confirmed") (hfut : now < appt.date)
    (hbooked : appt.date ∉ slots) :
    ((cancelAppointmentSlots slots appt now).1.count appt.date = 1) ∧
    (cancelAppointmentSlots slots appt now).2.status = "canceled" := by
  unfold cancelAppointmentSlots
  rw [if_pos ⟨hst, hfut⟩]
  refine ⟨?_, rfl⟩
  rw [List.count_cons_self, List.count_eq_zero.mpr hbooked]

theorem C2_witness :
    ((cancelAppointmentSlots [5] c2Appt 3).1.count c2Appt.date = 1) ∧
    (cancelAppointmentSlots [5] c2Appt 3).2.status = "canceled" :=
  C2_cancel_recreates_slot [5] c2Appt 3 rfl (by decide) (by decide)

/-- C10: payment_appointment_id_handler advances to PAYMENT_RECEIPT exactly
when the text is not the back or cancel label, is numeric, and denotes an
existing appointment owned by the requesting registered user with status
pending or confirmed; every other case yields MAIN_MENU or a re-prompt in
PAYMENT_APPOINTMENT_ID (the handler only reads the database). -/
theorem C10_payment_gate (db : DB) (tgId : Int) (text : String) :
    (paymentAppointmentId db tgId text = PAYMENT_RECEIPT ↔
      (text ≠ "🔙 بازگشت" ∧ text ≠ "❌ لغو" ∧ isdigit text = true ∧
       ∃ appt user,
         db.appointments.find? (fun a => a.id == strToNat text) = some appt ∧
         db.users.find? (fun u => u.telegram_id == tgId) = some user ∧
         appt.user_id = user.id ∧
         (appt.status = "pending" ∨ appt.status = "confirmed"))) ∧
    (paymentAppointmentId db tgId text = MAIN_MENU ∨
     paymentAppointmentId db tgId text = PAYMENT_APPOINTMENT_ID ∨
     paymentAppointmentId db tgId text = PAYMENT_RECEIPT) := by
  constructor
  · unfold paymentAppointmentId
    by_cases h1 : text = "🔙 بازگشت"
    · rw [if_pos h1]
      constructor
      · intro h; exact absurd h (by decide)
      · rintro ⟨hne, -⟩; exact absurd h1 hne
    · rw [if_neg h1]
      by_cases h2 : text = "❌ لغو"
      · rw [if_pos h2]
        constructor
        · intro h; exact absurd h (by decide)
        · rintro ⟨-, hne, -⟩; exact absurd h2 hne
      · rw [if_neg h2]
        by_cases h3 : isdigit text = true
        · rw [if_neg (by simp [h3])]
          cases hf : db.appointments.find? (fun a => a.id == strToNat text) with
          | none =>
              dsimp only
              constructor
              · intro h; exact absurd h (by decide)
              · rintro ⟨-, -, -, appt, user, hfa, -⟩
                exact Option.noConfusion hfa
          | some appt =>
              dsimp only
              cases hu : db.users.find? (fun u => u.telegram_id == tgId) with
              | none =>
                  dsimp only
                  constructor
                  · intro h; exact absurd h (by decide)
                  · rintro ⟨-, -, -, appt2, user, -, hfu, -⟩
                    exact Option.noConfusion hfu
              | some user =>
                  dsimp only
                  by_cases h4 : appt.user_id ≠ user.id
                  · rw [if_pos h4]
                    constructor
                    · intro h; exact absurd h (by decide)
                    · rintro ⟨-, -, -, appt2, user2, hfa, hfu, hid, -⟩
                      cases Option.some.inj hfa
                      cases Option.some.inj hfu
                      exact absurd hid h4
                  · rw [if_neg h4]
                    by_cases h5 :
                        ¬ (appt.status = "pending" ∨ appt.status = "confirmed")
                    · rw [if_pos h5]
                      constructor
                      · intro h; exact absurd h (by decide)
                      · rintro ⟨-, -, -, appt2, user2, hfa, -, -, hst⟩
                        cases Option.some.inj hfa
                        exact absurd hst h5
                    · rw [if_neg h5]
                      constructor
                      · intro _
                        exact ⟨h1, h2, h3, appt, user, rfl, rfl,
                          not_ne_iff.mp h4, not_not.mp h5⟩
                      · intro _; rfl
        · rw [if_pos (by simp [h3])]
          constructor
          · intro h; exact absurd h (by decide)
          · rintro ⟨-, -, h3x, -⟩; exact absurd h3x h3
  · unfold paymentAppointmentId
    split_ifs with h1 h2 h3
    · left; rfl
    · left; rfl
    · right; left; rfl
    · cases db.appointments.find? (fun a => a.id == strToNat text) with
      | none => dsimp only; right; left; rfl
      | some appt =>
          dsimp only
          cases db.users.find? (fun u => u.telegram_id == tgId) with
          | none => dsimp only; left; rfl
          | some user =>
              dsimp only
              by_cases h4 : appt.user_id ≠ user.id
              · rw [if_pos h4]; left; rfl
              · rw [if_neg h4]
                by_cases h5 :
                    ¬ (appt.status = "pending" ∨ appt.status = "confirmed")
                · rw [if_pos h5]; left; rfl
                · rw [if_neg h5]; right; right; rfl

theorem C10_witness : paymentAppointmentId c10DB 7 "1" = PAYMENT_RECEIPT :=
  (C10_payment_gate c10DB 7 "1").1.mpr
    ⟨by decide, by decide, by decide, c10Appt, c10User,
     by decide, by decide, rfl, Or.inl rfl⟩

theorem register_phone_state_main (db : DB) (tgId : Int) (n e text : String)
    (pending : PendingAction) (c1 c2 c3 : Bool) (now : Nat)
    (hc : text ≠ "❌ لغو") (he : text ≠ "") :
    (register_phone db tgId n e text pending c1 c2 c3 now).state = MAIN_MENU := by
  unfold register_phone
  rw [if_neg hc, if_neg he]
  dsimp only
  split
  · rfl
  · cases pending with
    | nonePending => rfl
    | makeAppointment => rfl
    | requestCertificate r d =>
        dsimp only
        split
        · rfl
        · split
          · rfl
          · split
            · rfl
            · rfl

/-- C3: the claim that malformed name and phone values are rejected by
regex conformance is false on the code: the phone field is only checked
for emptiness, so register_phone accepts the malformed phone "@",
registers the user (changing the database) and returns to the main menu
instead of re-prompting. -/
theorem C3_counterexample :
    (register_phone c3DB 9 "N" "n@x.com" "@" .nonePending true true true 0).state ≠
        REGISTER_PHONE ∧
    (register_phone c3DB 9 "N" "n@x.com" "@" .nonePending true true true 0).db ≠
        c3DB := by
  decide

/-- C3 (amended): the registration interface validates the email against
EMAIL_REGEX — a non-matching email re-prompts in REGISTER_EMAIL — while
the name and phone fields are only rejected when empty, re-prompting in
their own states; a rejected phone leaves the database unchanged, and no
branch of register_name or register_email touches the database at all. -/
theorem C3_amended :
    (∀ text, text ≠ "❌ لغو" →
      ((register_email text = REGISTER_PHONE ↔ emailRegexMatch text = true) ∧
       (register_email text = REGISTER_EMAIL ↔ emailRegexMatch text = false))) ∧
    (∀ text, text ≠ "❌ لغو" →
      ((register_name text = REGISTER_EMAIL ↔ text ≠ "") ∧
       (register_name text = REGISTER_NAME ↔ text = ""))) ∧
    (∀ db tgId n e text pending c1 c2 c3 now, text ≠ "❌ لغو" →
      (((register_phone db tgId n e text pending c1 c2 c3 now).state =
          REGISTER_PHONE ↔ text = "") ∧
       (text = "" →
         (register_phone db tgId n e text pending c1 c2 c3 now).db = db))) := by
  refine ⟨?_, ?_, ?_⟩
  · intro text h
    unfold register_email
    rw [if_neg h]
    cases hm : emailRegexMatch text <;> decide
  · intro text h
    by_cases he : text = ""
    · subst he
      decide
    · unfold register_name
      rw [if_neg h, if_neg he]
      simp [he, REGISTER_EMAIL, REGISTER_NAME]
  · intro db tgId n e text pending c1 c2 c3 now h
    by_cases he : text = ""
    · have hval : register_phone db tgId n e text pending c1 c2 c3 now =
          ⟨db, REGISTER_PHONE, false⟩ := by
        unfold register_phone
        rw [if_neg h, if_pos he]
      rw [hval]
      exact ⟨by simp [he], fun _ => rfl⟩
    · have hs := register_phone_state_main db tgId n e text pending c1 c2 c3 now h he
      refine ⟨?_, fun hx => absurd hx he⟩
      rw [hs]
      constructor
      · intro hx; exact absurd hx (by decide)
      · intro hx; exact absurd hx he

theorem C3_amended_witness :
    (register_email "a@b.c" = REGISTER_PHONE) ∧
    (register_name "" = REGISTER_NAME) ∧
    ((register_phone c3DB 9 "N" "n@x.com" "" .nonePending true true true 0).db =
      c3DB) :=
  ⟨((C3_amended.1 "a@b.c" (by decide)).1).mpr (by decide),
   ((C3_amended.2.1 "" (by decide)).2).mpr rfl,
   ((C3_amended.2.2 c3DB 9 "N" "n@x.com" "" .nonePending true true true 0
      (by decide)).2) rfl⟩

/-- C8: the registered command surface is exactly /start as the
conversation entry point, /cancel and /restart as fallbacks, and
/sendmsg, /getdevid and /sendtestreceipt restricted to the developer
chat; no other command handler is registered. -/
theorem C8_commands (devChatId : Int) :
    commandsRegistered devChatId =
      [("start", .entryPoint), ("cancel", .fallback), ("restart", .fallback),
       ("sendmsg", .developerOnly), ("getdevid", .developerOnly),
       ("sendtestreceipt", .developerOnly)] := rfl

set_option maxRecDepth 10000 in
/-- C9: the state DEV_REMOVE_DOCTOR_CHOOSE_SPECIALization is unreachable:
no handler of the conversation table returns it, it is outside the
reachable set computed from the MAIN_MENU entry state, and the developer
menu option for removing a doctor instead routes to
DEV_REMOVE_SPECIALIZATION_SELECT; moreover every return value of the
developer-menu handler lies in its recorded return set. -/
theorem C9_remove_doctor_state_unreachable :
    (∀ s, s < 29 →
      DEV_REMOVE_DOCTOR_CHOOSE_SPECIALization ∉ handlerReturnStates s) ∧
    DEV_REMOVE_DOCTOR_CHOOSE_SPECIALization ∉ reachableStates ∧
    (∀ db, db.specializations ≠ [] →
      developer_menu_handler db "➖ حذف پزشک" = DEV_REMOVE_SPECIALIZATION_SELECT) ∧
    (∀ db choice,
      developer_menu_handler db choice ∈ handlerReturnStates DEVELOPER_MENU) := by
  refine ⟨by decide, by decide, ?_, ?_⟩
  · intro db h
    unfold developer_menu_handler
    rw [if_neg (by decide), if_neg (by decide), if_pos rfl, if_neg h]
  · intro db choice
    unfold developer_menu_handler
    split_ifs <;> decide

theorem C9_witness :
    DEV_REMOVE_DOCTOR_CHOOSE_SPECIALization ∉ handlerReturnStates 14 ∧
    developer_menu_handler c9DB "➖ حذف پزشک" = DEV_REMOVE_SPECIALIZATION_SELECT :=
  ⟨C9_remove_doctor_state_unreachable.1 14 (by decide),
   C9_remove_doctor_state_unreachable.2.2.1 c9DB (by decide)⟩

/-- C5: in appointment_description a newly created appointment row is
committed only if the developer notification succeeds; when the send (or
the commit) raises, the session is rolled back and the database is
returned unchanged, and in particular a failed notification always
leaves the database unchanged. -/
theorem C5_commit_only_if_notified (db : DB) (tgId : Int) (text : String)
    (dId : Nat) (cm sp : String) (notifyOk commitOk : Bool) (now : Nat)
    (r : ApptDescResult)
    (hr : appointment_description db tgId text dId cm sp notifyOk commitOk now =
      some r) :
    (notifyOk = false → r.db = db) ∧
    (r.db ≠ db → notifyOk = true ∧ commitOk = true) := by
  unfold appointment_description at hr
  repeat' split at hr
  all_goals first
    | exact Option.noConfusion hr
    | (cases Option.some.inj hr
       exact ⟨fun _ => rfl, fun hx => absurd rfl hx⟩)
    | (cases Option.some.inj hr
       rename_i hcond
       simp only [Bool.and_eq_true] at hcond
       exact ⟨fun hx => absurd hcond.1 (by simp [hx]), fun _ => hcond⟩)

theorem C5_witness :
    (⟨c5DB, MAIN_MENU, true⟩ : ApptDescResult).db = c5DB :=
  (C5_commit_only_if_notified c5DB 7 "sick" 1 "حضوری" "Cardiology" false true 0
    ⟨c5DB, MAIN_MENU, true⟩ (by decide)).1 rfl

/-- C6: a database integrity violation at the commit sites of
register_phone (both its registration commit and its pending-certificate
commit), dev_add_specialization and confirm_appointment rolls back: the
persistent state of the failing commit is unchanged and a failure reply
is sent (the certificate-branch failure leaves the certificates table
unchanged while the earlier successful registration commit persists). -/
theorem C6_integrity_rollback :
    (∀ db tgId n e text pending c2 c3 now, text ≠ "❌ لغو" → text ≠ "" →
      register_phone db tgId n e text pending false c2 c3 now =
        ⟨db, MAIN_MENU, true⟩) ∧
    (∀ db tgId n e text r d now, text ≠ "❌ لغو" → text ≠ "" →
      r ≠ "" → d ≠ "" →
      ((register_phone db tgId n e text (.requestCertificate r d)
          true false true now).db.certificates = db.certificates ∧
       (register_phone db tgId n e text (.requestCertificate r d)
          true false true now).errorSent = true)) ∧
    (∀ db text, text ≠ "🔙 بازگشت" → text ≠ "❌ لغو" → text ≠ "" →
      db.specializations.find? (fun sp => sp.name == text) = none →
      dev_add_specialization db text false =
        ⟨db, DEV_MANAGE_SPECIALIZATIONS, true⟩) ∧
    (∀ db apptId a,
      db.appointments.find? (fun x => x.id == apptId) = some a →
      a.status = "pending" →
      confirmAppointment db apptId false = (db, .commitFailed)) := by
  refine ⟨?_, ?_, ?_, ?_⟩
  · intro db tgId n e text pending c2 c3 now hc hne
    unfold register_phone
    rw [if_neg hc, if_neg hne]
    rfl
  · intro db tgId n e text r d now hc hne hr hd
    unfold register_phone
    rw [if_neg hc, if_neg hne]
    dsimp only
    rw [if_neg (by decide)]
    rw [if_neg (by simp [hr, hd])]
    rw [if_pos (by decide)]
    cases hu : db.users.find? (fun u => u.telegram_id == tgId) with
    | none => exact ⟨rfl, rfl⟩
    | some u0 => exact ⟨rfl, rfl⟩
  · intro db text h1 h2 h3 hf
    unfold dev_add_specialization
    rw [if_neg h1, if_neg h2, if_neg h3, hf]
    rfl
  · intro db apptId a hf hp
    unfold confirmAppointment
    rw [hf]
    dsimp only
    rw [if_pos (by simp [hp])]
    rfl

theorem C6_witness :
    register_phone c3DB 9 "N" "n@x.com" "123" .nonePending false true true 0 =
      ⟨c3DB, MAIN_MENU, true⟩ ∧
    dev_add_specialization c3DB "Ortho" false =
      ⟨c3DB, DEV_MANAGE_SPECIALIZATIONS, true⟩ ∧
    confirmAppointment c10DB 1 false = (c10DB, .commitFailed) :=
  ⟨C6_integrity_rollback.1 c3DB 9 "N" "n@x.com" "123" .nonePending true true 0
      (by decide) (by decide),
   C6_integrity_rollback.2.2.1 c3DB "Ortho" (by decide) (by decide) (by decide)
      (by decide),
   C6_integrity_rollback.2.2.2 c10DB 1 c10Appt (by decide) rfl⟩

/-- C7: the claim that every failed network operation ends with a generic
failure message and a return to MAIN_MENU is false: the developer
send-message flow catches and logs the failed send and reports failure,
but returns DEVELOPER_MENU, not MAIN_MENU. -/
theorem C7_counterexample : ¬ C7Claim := by
  intro h
  exact absurd (h.2.2 "5 hi" (by decide)) (by decide)

/-- C7 (amended): failures of the network operations are caught broadly
at the call site and logged: a failed SMTP send inside send_email is
swallowed with no user-facing reply; a failed message send in
send_message_to_developer and a failed receipt download in
payment_receipt_handler report a generic failure message and return
MAIN_MENU; the developer send-message flow reports a generic failure
message but returns DEVELOPER_MENU.  No failure propagates. -/
theorem C7_amended :
    (∀ e, send_email e false ≠ .sent ∧
      (emailRegexMatch e = true → send_email e false = .errorLogged)) ∧
    (∀ text, text ≠ "🔙 بازگشت" → text ≠ "❌ لغو" → text ≠ "" →
      send_message_to_developer text false = ⟨MAIN_MENU, true⟩) ∧
    (∀ db tgId u aid,
      db.users.find? (fun x => x.telegram_id == tgId) = some u →
      payment_receipt db tgId (some aid) .photo false true = ⟨MAIN_MENU, true⟩) ∧
    (∀ text p0 rest, breakAtSpace text.data = some (p0, rest) →
      isdigit (String.mk p0) = true →
      send_message_to_user text false = ⟨DEVELOPER_MENU, true⟩) := by
  refine ⟨?_, ?_, ?_, ?_⟩
  · intro e
    unfold send_email
    cases hm : emailRegexMatch e with
    | false => exact ⟨by decide, fun hx => Bool.noConfusion hx⟩
    | true => exact ⟨by decide, fun _ => rfl⟩
  · intro text h1 h2 h3
    unfold send_message_to_developer
    rw [if_neg h1, if_neg h2, if_neg h3]
    rfl
  · intro db tgId u aid hu
    unfold payment_receipt
    rw [hu]
    rfl
  · intro text p0 rest hb hd
    unfold send_message_to_user
    rw [hb]
    dsimp only
    rw [if_neg (by simp [hd])]
    rfl

theorem C7_amended_witness :
    send_email "a@b.c" false = EmailSendResult.errorLogged ∧
    send_message_to_developer "hello" false = ⟨MAIN_MENU, true⟩ ∧
    payment_receipt c5DB 7 (some 1) .photo false true = ⟨MAIN_MENU, true⟩ ∧
    send_message_to_user "5 hi" false = ⟨DEVELOPER_MENU, true⟩ :=
  ⟨(C7_amended.1 "a@b.c").2 (by decide),
   C7_amended.2.1 "hello" (by decide) (by decide) (by decide),
   C7_amended.2.2.1 c5DB 7 c5User 1 (by decide),
   C7_amended.2.2.2 "5 hi" ['5'] ['h', 'i'] (by decide) (by decide)⟩

end MedBot
